import Mathlib

/-!
Shallow embedding of the hidrowebsdk client library: JSON-to-table
conversion (client.py, ApiResponse.items_as_dataframe), the authenticated
request pipeline (client.py, Client.authenticate / _make_request /
_df_from_api), validators and date utilities (utils.py), configuration
getters (config.py), and the connection-retry loop of the HidroWebClient.
Python strings are embedded as lists of characters, exceptions as
Except / Option results, and network responses as oracles indexed by call
number.
-/

set_option maxRecDepth 4096

/-- A JSON value, as produced by response.json() in client.py. -/
inductive Json where
  | null : Json
  | bool (b : Bool) : Json
  | num (n : Int) : Json
  | str (s : String) : Json
  | arr (elems : List Json) : Json
  | obj (fields : List (String × Json)) : Json

/-- A pandas DataFrame, modelled by its column labels and its list of rows;
each row is the JSON value the row was built from.  (For rows built from
non-object values pandas uses positional column labels, which this model
does not represent; no theorem below asserts anything about the columns of
such frames.) -/
structure DataFrame where
  columns : List String
  rows : List Json

/-- The empty DataFrame, pd.DataFrame(). -/
def emptyDataFrame : DataFrame := ⟨[], []⟩

/-- Whether a JSON value is an object (a Python dict). -/
def isObj : Json → Bool
  | Json.obj _ => true
  | _ => false

/-- Field names of a JSON object, in order; empty for non-objects. -/
def recordKeys : Json → List String
  | Json.obj fs => fs.map Prod.fst
  | _ => []

/-- Column labels pandas derives from a list of records: the union of the
records' field names in order of first appearance. -/
def unionKeys (xs : List Json) : List String :=
  xs.foldl (fun acc j => acc ++ (recordKeys j).filter (fun k => !(acc.contains k))) []

/-- ApiResponse.items_as_dataframe (client.py, lines 93-108): a list becomes
one row per element, a dict becomes a single-row frame, anything else
(None, string, number, bool, absent) becomes an empty frame. -/
def items_as_dataframe (items : Option Json) : DataFrame :=
  match items with
  | some (Json.arr xs) => ⟨unionKeys xs, xs⟩
  | some (Json.obj fs) => ⟨unionKeys [Json.obj fs], [Json.obj fs]⟩
  | _ => emptyDataFrame

/-- Whether the items field is a list all of whose elements are records. -/
def isRecordList : Option Json → Bool
  | some (Json.arr xs) => xs.all isObj
  | _ => false

/-- Whether the items field is a single JSON object. -/
def isSingleObject : Option Json → Bool
  | some (Json.obj _) => true
  | _ => false

/-- Whether the items field is a list or an object (the two shapes
items_as_dataframe treats specially). -/
def isListOrObject : Option Json → Bool
  | some (Json.arr _) => true
  | some (Json.obj _) => true
  | _ => false

/-- Claim C5 as stated: one row per element for a list of records, one row
for a single object, and an empty table for every other shape of the items
field (the catch-all covering everything that is neither a record list nor
a single object). -/
def tabular_claim (items : Option Json) : Prop :=
  (isRecordList items = true → ∀ xs, items = some (Json.arr xs) →
      (items_as_dataframe items).rows.length = xs.length ∧
      (items_as_dataframe items).columns = unionKeys xs) ∧
  (isSingleObject items = true → (items_as_dataframe items).rows.length = 1) ∧
  (isRecordList items = false → isSingleObject items = false →
      items_as_dataframe items = emptyDataFrame)

/-- Python str.strip(): drop leading and trailing whitespace. -/
def stripChars (cs : List Char) : List Char :=
  ((cs.dropWhile Char.isWhitespace).reverse.dropWhile Char.isWhitespace).reverse

/-- Split a character list on a separator character, like splitting a
string on a fixed one-character separator. -/
def splitChar (sep : Char) : List Char → List (List Char)
  | [] => [[]]
  | c :: rest =>
    let r := splitChar sep rest
    if c = sep then [] :: r
    else
      match r with
      | [] => [[c]]
      | g :: gs => (c :: g) :: gs

/-- Decimal value of a list of digit characters. -/
def natOfDigits (cs : List Char) : Nat :=
  cs.foldl (fun a c => 10 * a + (c.toNat - 48)) 0

/-- Whether every character of the list is an ASCII decimal digit. -/
def allDigits (cs : List Char) : Bool := cs.all Char.isDigit

/-- The decimal digit character for k (meaningful for k < 10). -/
def digitChar (k : Nat) : Char := Char.ofNat (48 + k)

/-- Zero-padded two-digit decimal rendering, as strftime %m / %d. -/
def pad2 (n : Nat) : List Char := [digitChar (n / 10 % 10), digitChar (n % 10)]

/-- Zero-padded four-digit decimal rendering, modelling strftime %Y for the
four-digit years that %Y itself parses. -/
def pad4 (n : Nat) : List Char :=
  [digitChar (n / 1000 % 10), digitChar (n / 100 % 10),
   digitChar (n / 10 % 10), digitChar (n % 10)]

/-- A calendar date as held by datetime.date. -/
structure Date where
  year : Nat
  month : Nat
  day : Nat
deriving DecidableEq, Repr

/-- Gregorian leap-year rule, as used by datetime. -/
def isLeapYear (y : Nat) : Bool :=
  (y % 4 == 0 && y % 100 != 0) || y % 400 == 0

/-- Number of days in a month of a given year. -/
def daysInMonth (y m : Nat) : Nat :=
  if m = 2 then (if isLeapYear y then 29 else 28)
  else if m = 4 ∨ m = 6 ∨ m = 9 ∨ m = 11 then 30
  else 31

/-- Whether the components denote a real calendar date accepted by the
datetime.date constructor (year within MINYEAR..MAXYEAR). -/
def isValidDate (dt : Date) : Bool :=
  decide (1 ≤ dt.year ∧ dt.year ≤ 9999 ∧ 1 ≤ dt.month ∧ dt.month ≤ 12 ∧
          1 ≤ dt.day ∧ dt.day ≤ daysInMonth dt.year dt.month)

/-- One of the strptime format strings tried by format_date (utils.py):
its separator character and whether the year comes first. -/
structure DateFmt where
  yearFirst : Bool
  sep : Char
deriving DecidableEq, Repr

/-- The format string %Y-%m-%d. -/
def ymdDash : DateFmt := ⟨true, '-'⟩

/-- The format string %d/%m/%Y. -/
def dmySlash : DateFmt := ⟨false, '/'⟩

/-- The format string %d-%m-%Y. -/
def dmyDash : DateFmt := ⟨false, '-'⟩

/-- The format string %Y/%m/%d. -/
def ymdSlash : DateFmt := ⟨true, '/'⟩

/-- The formats tried by format_date, in source order (utils.py line 47). -/
def dateFormats : List DateFmt := [ymdDash, dmySlash, dmyDash, ymdSlash]

/-- datetime.strptime for one of the four formats above: the year part is
exactly four digits, month and day are one or two digits, the whole string
is consumed, and the components must form a real calendar date. -/
def parseWithFmt (fmt : DateFmt) (cs : List Char) : Option Date :=
  match splitChar fmt.sep cs with
  | [p1, p2, p3] =>
    let ys := if fmt.yearFirst then p1 else p3
    let ms := p2
    let ds := if fmt.yearFirst then p3 else p1
    if ys.length = 4 ∧ allDigits ys = true ∧
       1 ≤ ms.length ∧ ms.length ≤ 2 ∧ allDigits ms = true ∧
       1 ≤ ds.length ∧ ds.length ≤ 2 ∧ allDigits ds = true then
      let dt : Date := ⟨natOfDigits ys, natOfDigits ms, natOfDigits ds⟩
      if isValidDate dt = true then some dt else none
    else none
  | _ => none

/-- strftime('%Y-%m-%d') of a parsed date. -/
def canonChars (dt : Date) : List Char :=
  pad4 dt.year ++ '-' :: (pad2 dt.month ++ '-' :: pad2 dt.day)

/-- The first of the four supported formats that parses the stripped input,
mirroring the loop of format_date (utils.py lines 47-52). -/
def formatDateParsed (cs : List Char) : Option Date :=
  dateFormats.findSome? (fun f => parseWithFmt f (stripChars cs))

/-- format_date (utils.py lines 28-55) on a string input: normalize to
YYYY-MM-DD, none modelling the raised ValueError. -/
def format_date (cs : List Char) : Option (List Char) :=
  (formatDateParsed cs).map canonChars

/-- Comparison of datetime values made from dates: lexicographic on
(year, month, day). -/
def dateLt (a b : Date) : Bool :=
  decide (a.year < b.year ∨ (a.year = b.year ∧
          (a.month < b.month ∨ (a.month = b.month ∧ a.day < b.day))))

/-- validate_date_range (utils.py lines 58-82): format both dates, re-parse
the formatted strings, raise (none) when the end precedes the start,
otherwise return the formatted pair. -/
def validate_date_range (s e : List Char) : Option (List Char × List Char) :=
  match format_date s, format_date e with
  | some fs, some fe =>
    match parseWithFmt ymdDash fs, parseWithFmt ymdDash fe with
    | some sd, some ed => if dateLt ed sd then none else some (fs, fe)
    | _, _ => none
  | _, _ => none

/-- An arbitrary Python value passed to validate_station_code: either a
str, or anything else (None, int, ...). -/
inductive PyObj where
  | pyStr (cs : List Char) : PyObj
  | nonStr : PyObj

/-- validate_station_code (utils.py lines 11-25): False for non-strings,
otherwise whether the stripped string matches the regex of eight digits. -/
def validate_station_code : PyObj → Bool
  | PyObj.nonStr => false
  | PyObj.pyStr cs =>
    (stripChars cs).length == 8 && (stripChars cs).all Char.isDigit

/-- Claim C6 as stated: the validator accepts exactly the strings that
consist of exactly eight decimal digits, rejecting every other input. -/
def station_code_claim : Prop :=
  ∀ o, validate_station_code o = true ↔
    ∃ cs, o = PyObj.pyStr cs ∧ cs.length = 8 ∧ cs.all Char.isDigit = true

/-- A process environment: a partial map from variable names to values. -/
def Env : Type := String → Option String

/-- Value of a nonempty all-digit character list, as an Option. -/
def digitsValue (cs : List Char) : Option Nat :=
  if cs ≠ [] ∧ allDigits cs = true then some (natOfDigits cs) else none

/-- Python int(str): strip whitespace, allow an optional sign, then digits
(numeric-literal underscores are not modelled); none models ValueError. -/
def pyInt (s : String) : Option Int :=
  match stripChars s.data with
  | '+' :: rest => (digitsValue rest).map (fun n => (n : Int))
  | '-' :: rest => (digitsValue rest).map (fun n => -(n : Int))
  | rest => (digitsValue rest).map (fun n => (n : Int))

/-- Config.DEFAULT_BASE_URL (config.py line 13). -/
def DEFAULT_BASE_URL : String := "https://www.ana.gov.br/hidrowebservice"

/-- Config.get_base_url (config.py lines 53-56). -/
def get_base_url (env : Env) : String :=
  (env ("HIDROWEB_BASE_URL")).getD DEFAULT_BASE_URL

/-- Config.get_timeout (config.py lines 58-64): int() of the environment
value, falling back to the default 30 when unset or unparseable. -/
def get_timeout (env : Env) : Int :=
  match env ("HIDROWEB_TIMEOUT") with
  | none => 30
  | some s => (pyInt s).getD 30

/-- Config.get_max_retries (config.py lines 66-72): int() of the
environment value, falling back to the default 3. -/
def get_max_retries (env : Env) : Int :=
  match env ("HIDROWEB_MAX_RETRIES") with
  | none => 3
  | some s => (pyInt s).getD 3

/-- HIDROWEB_USER (client.py line 31): os.getenv(..) or "user", so an unset
or empty variable yields the default. -/
def hidroweb_user (env : Env) : String :=
  match env ("HIDROWEB_USER") with
  | none => "user"
  | some s => if s = "" then "user" else s

/-- HIDROWEB_PASSWORD (client.py line 32). -/
def hidroweb_password (env : Env) : String :=
  match env ("HIDROWEB_PASSWORD") with
  | none => "password"
  | some s => if s = "" then "password" else s

/-- BASE_URL (client.py line 30): a module-level constant. -/
def BASE_URL : String := "https://www.ana.gov.br/hidrowebservice/EstacoesTelemetricas/"

/-- The base URL the async Client actually requests against: it constructs
httpx.AsyncClient(base_url=BASE_URL) (client.py line 171), independent of
the environment. -/
def client_base_url (_env : Env) : String := BASE_URL

/-- The response seen by Client.authenticate: its HTTP status and the
result of looking up items.tokenautenticacao in the JSON body (none when
the items or token field is absent). -/
structure AuthResponse where
  status : Nat
  tokenField : Option String

/-- Failure kind of Client.authenticate: non-200 response, or no usable
token in the body. -/
inductive AuthError where
  | httpFailure (status : Nat) : AuthError
  | tokenNotFound : AuthError
deriving DecidableEq, Repr

/-- Client.authenticate (client.py lines 174-195) as a transition on the
stored token: raise on a non-200 status; raise when the token field is
absent or falsy (empty); otherwise store the new token.  The first
component is the token after the call, the second the outcome. -/
def authenticate (token : Option String) (resp : AuthResponse) :
    Option String × Except AuthError Unit :=
  if resp.status ≠ 200 then (token, Except.error (AuthError.httpFailure resp.status))
  else
    match resp.tokenField with
    | none => (token, Except.error AuthError.tokenNotFound)
    | some t =>
      if t = "" then (token, Except.error AuthError.tokenNotFound)
      else (some t, Except.ok ())

/-- Whether an Except is in its error case. -/
def isErr {α β : Type} : Except α β → Bool
  | Except.error _ => true
  | Except.ok _ => false

/-- An API response as seen by _make_request: HTTP status and the items
field of the JSON body. -/
structure ApiResp where
  status : Nat
  items : Option Json

/-- Observable steps of one fetch cycle: an authenticate call, or an HTTP
request that received the given status. -/
inductive Event where
  | authCall : Event
  | httpRequest (status : Nat) : Event
deriving DecidableEq, Repr

/-- Error surfaced by the fetch pipeline: a propagated authentication
failure, or the API error raised by _df_from_api for a non-200 status. -/
inductive FetchError where
  | authError (e : AuthError) : FetchError
  | apiError (status : Nat) : FetchError
deriving DecidableEq, Repr

/-- The part of Client._make_request after a token is held (client.py
lines 222-228): issue the request; on a 401, authenticate once more (the
authIdx-th authenticate call) and issue the request exactly once more,
returning whatever the second request yields. -/
def make_request_core (token : Option String) (authO : Nat → AuthResponse)
    (reqO : Nat → ApiResp) (authIdx : Nat) :
    List Event × Except FetchError ApiResp :=
  let r := reqO 0
  if r.status = 401 then
    match authenticate token (authO authIdx) with
    | (_, Except.error e) =>
      ([Event.httpRequest r.status, Event.authCall],
       Except.error (FetchError.authError e))
    | (_tok2, Except.ok _) =>
      let r2 := reqO 1
      ([Event.httpRequest r.status, Event.authCall, Event.httpRequest r2.status],
       Except.ok r2)
  else ([Event.httpRequest r.status], Except.ok r)

/-- Client._make_request (client.py lines 197-228): authenticate first when
no token is held (propagating its failure before any request), then run the
request/401-retry step.  authO gives the response to the i-th authenticate
call and reqO the status/body of the i-th HTTP request of this cycle. -/
def make_request (token : Option String) (authO : Nat → AuthResponse)
    (reqO : Nat → ApiResp) : List Event × Except FetchError ApiResp :=
  match token with
  | some t => make_request_core (some t) authO reqO 0
  | none =>
    match authenticate none (authO 0) with
    | (_, Except.error e) => ([Event.authCall], Except.error (FetchError.authError e))
    | (tok1, Except.ok _) =>
      let rest := make_request_core tok1 authO reqO 1
      (Event.authCall :: rest.1, rest.2)

/-- Client._df_from_api (client.py lines 230-259): raise an API error
carrying the status for any non-200 final response, otherwise convert the
items field to a DataFrame. -/
def df_from_api (token : Option String) (authO : Nat → AuthResponse)
    (reqO : Nat → ApiResp) : List Event × Except FetchError DataFrame :=
  match make_request token authO reqO with
  | (evs, Except.error e) => (evs, Except.error e)
  | (evs, Except.ok r) =>
    if r.status ≠ 200 then (evs, Except.error (FetchError.apiError r.status))
    else (evs, Except.ok (items_as_dataframe r.items))

/-- Number of authenticate calls in an event trace. -/
def countAuth (evs : List Event) : Nat :=
  (evs.filter (fun e => match e with | Event.authCall => true | _ => false)).length

/-- Number of HTTP requests in an event trace. -/
def countReq (evs : List Event) : Nat :=
  (evs.filter (fun e => match e with | Event.httpRequest _ => true | _ => false)).length

/-- Outcome of one connection attempt: a transport-level failure
(connection error or timeout), or an HTTP response. -/
inductive Attempt where
  | connectionFailure : Attempt
  | httpResponse (status : Nat) : Attempt

/-- Modelled from the spec: the bounded connection-retry loop of the
package's HidroWebClient (imported by hidrowebsdk/__init__.py and exercised
by tests/test_basic.py, with its bound supplied by Config.get_max_retries)
is not present under src/; per spec section 4.1 step 4, a connection or
timeout failure is retried up to the configured maximum attempt count with
exponential backoff (delay doubling per attempt, starting at one time
unit), and exhausting the retries surfaces a ConnectionError.  Arguments:
the outcome of the i-th attempt, the index of the current attempt, the
number of retries still allowed, and the current backoff delay.  Returns
the number of attempts made, the list of delays slept, and the final
status (none modelling the surfaced ConnectionError). -/
def requestWithRetries (outcomes : Nat → Attempt) :
    Nat → Nat → Nat → Nat × List Nat × Option Nat
  | idx, 0, _delay =>
    match outcomes idx with
    | Attempt.httpResponse s => (1, [], some s)
    | Attempt.connectionFailure => (1, [], none)
  | idx, Nat.succ r, delay =>
    match outcomes idx with
    | Attempt.httpResponse s => (1, [], some s)
    | Attempt.connectionFailure =>
      let rest := requestWithRetries outcomes (idx + 1) r (2 * delay)
      (rest.1 + 1, delay :: rest.2.1, rest.2.2)

/-- Modelled from the spec: one fetch with the configured retry budget:
the first attempt with maxRetries retries remaining and an initial backoff
delay of one time unit. -/
def fetch_with_retry (maxRetries : Nat) (outcomes : Nat → Attempt) :
    Nat × List Nat × Option Nat :=
  requestWithRetries outcomes 0 maxRetries 1

/-- Case analysis of Client.authenticate: non-200 failure, missing token,
empty token, or success storing the new token. -/
theorem authenticate_cases (tok : Option String) (resp : AuthResponse) :
    (resp.status ≠ 200 ∧
      authenticate tok resp = (tok, Except.error (AuthError.httpFailure resp.status))) ∨
    (resp.status = 200 ∧ resp.tokenField = none ∧
      authenticate tok resp = (tok, Except.error AuthError.tokenNotFound)) ∨
    (∃ t, resp.status = 200 ∧ resp.tokenField = some t ∧ t = "" ∧
      authenticate tok resp = (tok, Except.error AuthError.tokenNotFound)) ∨
    (∃ t, resp.status = 200 ∧ resp.tokenField = some t ∧ t ≠ "" ∧
      authenticate tok resp = (some t, Except.ok ())) := by
  by_cases hs : resp.status = 200
  · cases hT : resp.tokenField with
    | none =>
      right; left
      exact ⟨hs, rfl, by simp [authenticate, hs, hT]⟩
    | some t =>
      by_cases ht : t = ""
      · right; right; left
        exact ⟨t, hs, rfl, ht, by simp [authenticate, hs, hT, ht]⟩
      · right; right; right
        exact ⟨t, hs, rfl, ht, by simp [authenticate, hs, hT, ht]⟩
  · left
    exact ⟨hs, by simp [authenticate, hs]⟩

/-- Claim C10: Client.authenticate is atomic with respect to the stored
token: a failing call leaves the token exactly as it was, and the token
changes only when a non-empty token value was successfully extracted from
the response body. -/
theorem authenticate_token_atomic (tok : Option String) (resp : AuthResponse) :
    (isErr (authenticate tok resp).2 = true → (authenticate tok resp).1 = tok) ∧
    ((authenticate tok resp).1 ≠ tok →
      ∃ t, t ≠ "" ∧ resp.tokenField = some t ∧
        (authenticate tok resp).1 = some t ∧
        isErr (authenticate tok resp).2 = false) := by
  rcases authenticate_cases tok resp with ⟨h1, h2⟩ | ⟨h1, h2, h3⟩ |
    ⟨t, h1, h2, h3, h4⟩ | ⟨t, h1, h2, h3, h4⟩
  · simp [h2, isErr]
  · simp [h3, isErr]
  · simp [h4, isErr]
  · constructor
    · intro hc
      rw [h4] at hc
      simp [isErr] at hc
    · intro _
      exact ⟨t, h3, h2, by rw [h4], by rw [h4]; rfl⟩

/-- Witness for claim C10 at a concrete failing call: a 500 response
leaves a previously stored token in place. -/
theorem authenticate_token_atomic_witness :
    (authenticate (some ("old")) { status := 500, tokenField := some ("new") }).1 =
      some ("old") :=
  (authenticate_token_atomic (some ("old"))
    { status := 500, tokenField := some ("new") }).1 (by decide)

/-- Claim C3 is false as stated: at status 201 with a token present the
code raises (it demands exactly 200), although 201 is an HTTP success
status and the token field is not absent. -/
theorem authenticate_claim_counterexample :
    ¬ (isErr (authenticate none { status := 201, tokenField := some ("tok") }).2 = true ↔
        (¬ (200 ≤ 201 ∧ 201 < 300) ∨ (some ("tok") : Option String) = none)) := by
  decide

/-- Claim C3 (amended): a fetch that starts with no token performs
authentication first, and authentication fails exactly when the HTTP
status is not 200 or the response body holds no non-empty token field. -/
theorem authenticate_spec_amended :
    (∀ (tok : Option String) (resp : AuthResponse),
        isErr (authenticate tok resp).2 = true ↔
          (resp.status ≠ 200 ∨ resp.tokenField = none ∨
            resp.tokenField = some ("" : String))) ∧
    (∀ (authO : Nat → AuthResponse) (reqO : Nat → ApiResp),
        (make_request none authO reqO).1.head? = some Event.authCall) := by
  constructor
  · intro tok resp
    rcases authenticate_cases tok resp with ⟨h1, h2⟩ | ⟨h1, h2, h3⟩ |
      ⟨t, h1, h2, h3, h4⟩ | ⟨t, h1, h2, h3, h4⟩
    · simp [h2, isErr, h1]
    · simp [h3, isErr, h1, h2]
    · simp [h4, isErr, h1, h2, h3]
    · simp [h4, isErr, h1, h2, h3]
  · intro authO reqO
    unfold make_request
    rcases h : authenticate none (authO 0) with ⟨tok1, r⟩
    cases r with
    | error e => simp [h]
    | ok u => cases u; simp [h]

/-- Claim C5 is false as stated: the items field [1] is a list whose
element is not a record, so the stated catch-all demands an empty table,
but the code builds a one-row frame from it. -/
theorem items_as_dataframe_counterexample :
    ¬ tabular_claim (some (Json.arr [Json.num 1])) := by
  intro h
  have h3 := h.2.2 rfl rfl
  have h4 : (items_as_dataframe (some (Json.arr [Json.num 1]))).rows.length = 1 := rfl
  rw [h3] at h4
  exact absurd h4 (by decide)

/-- Claim C5 (amended): a list-valued items field yields one row per list
element, with column names the union of the records' field names when all
elements are records; a single object yields exactly one row; a null,
absent, or non-list non-object items field yields an empty table. -/
theorem items_as_dataframe_spec (items : Option Json) :
    (∀ xs, items = some (Json.arr xs) →
        (items_as_dataframe items).rows.length = xs.length ∧
        ((∀ j ∈ xs, isObj j = true) →
          (items_as_dataframe items).columns = unionKeys xs)) ∧
    (∀ fs, items = some (Json.obj fs) →
        (items_as_dataframe items).rows.length = 1) ∧
    (isListOrObject items = false → items_as_dataframe items = emptyDataFrame) := by
  refine ⟨?_, ?_, ?_⟩
  · rintro xs rfl
    exact ⟨rfl, fun _ => rfl⟩
  · rintro fs rfl
    rfl
  · intro h
    cases items with
    | none => rfl
    | some j => cases j <;> simp_all [isListOrObject, items_as_dataframe]

/-- Witness for claim C5 at a concrete one-record list. -/
theorem items_as_dataframe_spec_witness :
    (items_as_dataframe (some (Json.arr [Json.obj [("a", Json.num 1)]]))).rows.length =
      [Json.obj [("a", Json.num 1)]].length :=
  ((items_as_dataframe_spec (some (Json.arr [Json.obj [("a", Json.num 1)]]))).1
    [Json.obj [("a", Json.num 1)]] rfl).1

/-- Claim C4: a fetch whose response carries a 4xx/5xx status other than
401 raises the API error immediately, carrying that status, after exactly
one HTTP request and with no re-authentication. -/
theorem api_error_not_retried (t0 : String) (authO : Nat → AuthResponse)
    (reqO : Nat → ApiResp)
    (h4 : 400 ≤ (reqO 0).status) (h6 : (reqO 0).status < 600)
    (hne : (reqO 0).status ≠ 401) :
    df_from_api (some t0) authO reqO =
      ([Event.httpRequest (reqO 0).status],
       Except.error (FetchError.apiError (reqO 0).status)) := by
  have h200 : ¬ (reqO 0).status = 200 := by omega
  unfold df_from_api make_request make_request_core
  simp [hne, h200]

/-- Witness for claim C4 at a concrete 404 response. -/
theorem api_error_not_retried_witness :
    df_from_api (some ("t")) (fun _ => { status := 200, tokenField := none })
        (fun _ => { status := 404, items := none }) =
      ([Event.httpRequest 404], Except.error (FetchError.apiError 404)) :=
  api_error_not_retried ("t") (fun _ => { status := 200, tokenField := none })
    (fun _ => { status := 404, items := none }) (by decide) (by decide) (by decide)

/-- Claim C2: when a fetch with a held token receives a 401 and the
re-authentication succeeds, the cycle performs exactly one re-authentication
and exactly two HTTP requests (the original and one retry); if the retried
request also returns 401, that second unauthorized response surfaces as the
API error of the cycle. -/
theorem unauthorized_retry_policy (t0 t1 : String) (authO : Nat → AuthResponse)
    (reqO : Nat → ApiResp)
    (h401 : (reqO 0).status = 401)
    (hauth : authenticate (some t0) (authO 0) = (some t1, Except.ok ())) :
    countAuth (df_from_api (some t0) authO reqO).1 = 1 ∧
    countReq (df_from_api (some t0) authO reqO).1 = 2 ∧
    ((reqO 1).status = 401 →
      (df_from_api (some t0) authO reqO).2 =
        Except.error (FetchError.apiError 401)) := by
  have hmr : make_request (some t0) authO reqO =
      ([Event.httpRequest 401, Event.authCall, Event.httpRequest (reqO 1).status],
       Except.ok (reqO 1)) := by
    unfold make_request make_request_core
    simp [h401, hauth]
  refine ⟨?_, ?_, ?_⟩
  · by_cases h200 : (reqO 1).status = 200 <;>
      simp [df_from_api, hmr, h200, countAuth, List.filter]
  · by_cases h200 : (reqO 1).status = 200 <;>
      simp [df_from_api, hmr, h200, countReq, List.filter]
  · intro h2
    simp [df_from_api, hmr, h2]

/-- Witness for claim C2 at a concrete pair of 401 responses. -/
theorem unauthorized_retry_policy_witness :
    countAuth (df_from_api (some ("a"))
        (fun _ => { status := 200, tokenField := some ("b") })
        (fun _ => { status := 401, items := none })).1 = 1 ∧
    countReq (df_from_api (some ("a"))
        (fun _ => { status := 200, tokenField := some ("b") })
        (fun _ => { status := 401, items := none })).1 = 2 ∧
    (df_from_api (some ("a"))
        (fun _ => { status := 200, tokenField := some ("b") })
        (fun _ => { status := 401, items := none })).2 =
      Except.error (FetchError.apiError 401) := by
  have h := unauthorized_retry_policy ("a") ("b")
    (fun _ => { status := 200, tokenField := some ("b") })
    (fun _ => { status := 401, items := none }) rfl rfl
  exact ⟨h.1, h.2.1, h.2.2 rfl⟩

/-- Claim C9 is false as stated: the base URL the async Client requests
against is the hard-coded module constant, so setting HIDROWEB_BASE_URL
does not override it, and with an empty environment it is not the
documented default https://www.ana.gov.br/hidrowebservice either. -/
theorem config_claim_counterexample :
    client_base_url
        (fun k => if k = "HIDROWEB_BASE_URL" then some ("http://example.org") else none) ≠
      "http://example.org" ∧
    client_base_url (fun _ => none) ≠ DEFAULT_BASE_URL := by
  constructor <;> decide

/-- Claim C9 (amended): the Config getters for base URL, timeout and max
retries are overridable via HIDROWEB_BASE_URL / HIDROWEB_TIMEOUT /
HIDROWEB_MAX_RETRIES with defaults https://www.ana.gov.br/hidrowebservice,
30 and 3, and the credentials via HIDROWEB_USER / HIDROWEB_PASSWORD with
defaults user / password; the async Client's request base URL, however, is
the fixed constant https://www.ana.gov.br/hidrowebservice/EstacoesTelemetricas/
and is unaffected by the environment. -/
theorem config_env_overrides (env : Env) :
    (env ("HIDROWEB_BASE_URL") = none → get_base_url env = DEFAULT_BASE_URL) ∧
    (∀ v, env ("HIDROWEB_BASE_URL") = some v → get_base_url env = v) ∧
    (env ("HIDROWEB_TIMEOUT") = none → get_timeout env = 30) ∧
    (∀ v n, env ("HIDROWEB_TIMEOUT") = some v → pyInt v = some n →
      get_timeout env = n) ∧
    (env ("HIDROWEB_MAX_RETRIES") = none → get_max_retries env = 3) ∧
    (∀ v n, env ("HIDROWEB_MAX_RETRIES") = some v → pyInt v = some n →
      get_max_retries env = n) ∧
    (env ("HIDROWEB_USER") = none → hidroweb_user env = "user") ∧
    (∀ v, env ("HIDROWEB_USER") = some v → v ≠ "" → hidroweb_user env = v) ∧
    (env ("HIDROWEB_PASSWORD") = none → hidroweb_password env = "password") ∧
    (∀ v, env ("HIDROWEB_PASSWORD") = some v → v ≠ "" → hidroweb_password env = v) ∧
    (∀ env2 : Env, client_base_url env = client_base_url env2) := by
  refine ⟨?_, ?_, ?_, ?_, ?_, ?_, ?_, ?_, ?_, ?_, ?_⟩
  · intro h; simp [get_base_url, h, DEFAULT_BASE_URL]
  · intro v h; simp [get_base_url, h]
  · intro h; simp [get_timeout, h]
  · intro v n h hp; simp [get_timeout, h, hp]
  · intro h; simp [get_max_retries, h]
  · intro v n h hp; simp [get_max_retries, h, hp]
  · intro h; simp [hidroweb_user, h]
  · intro v h hv; simp [hidroweb_user, h, hv]
  · intro h; simp [hidroweb_password, h]
  · intro v h hv; simp [hidroweb_password, h, hv]
  · intro env2; rfl

/-- Witness for claim C9: a concrete environment overriding the timeout. -/
theorem config_env_overrides_witness :
    get_timeout (fun k => if k = "HIDROWEB_TIMEOUT" then some ("42") else none) = 42 := by
  have h := config_env_overrides
    (fun k => if k = "HIDROWEB_TIMEOUT" then some ("42") else none)
  exact h.2.2.2.1 ("42") 42 (by decide) (by decide)

/-- Prepending the current delay to the doubled-delay tail gives the
doubling delay sequence one step longer. -/
theorem delays_shift (delay r : Nat) :
    delay :: (List.range r).map (fun k => 2 * delay * 2 ^ k) =
      (List.range (r + 1)).map (fun k => delay * 2 ^ k) := by
  rw [List.range_succ_eq_map, List.map_cons, List.map_map]
  simp only [pow_zero, mul_one]
  congr 1
  apply List.map_congr_left
  intro a _
  simp only [Function.comp, pow_succ]
  ring

/-- All attempts failing with connection errors makes the retry loop use
its whole budget: with r retries remaining and current delay d it performs
r + 1 attempts, sleeps the doubling delays d, 2d, ..., and surfaces the
connection error. -/
theorem requestWithRetries_all_fail (outcomes : Nat → Attempt)
    (h : ∀ i, outcomes i = Attempt.connectionFailure) :
    ∀ (remaining idx delay : Nat),
      requestWithRetries outcomes idx remaining delay =
        (remaining + 1, (List.range remaining).map (fun k => delay * 2 ^ k), none) := by
  intro remaining
  induction remaining with
  | zero =>
    intro idx delay
    simp [requestWithRetries, h idx]
  | succ r ih =>
    intro idx delay
    simp only [requestWithRetries, h idx, ih (idx + 1) (2 * delay), Prod.mk.injEq]
    exact ⟨trivial, delays_shift delay r, trivial⟩

/-- Claim C1 (modelled from the spec, see requestWithRetries): when every
attempt fails with a connection or timeout failure, the fetch makes exactly
max_retries + 1 attempts, sleeping exponentially increasing delays
1, 2, 4, ... between them, and then surfaces a ConnectionError. -/
theorem fetch_with_retry_exhausts (maxRetries : Nat) (outcomes : Nat → Attempt)
    (h : ∀ i, outcomes i = Attempt.connectionFailure) :
    fetch_with_retry maxRetries outcomes =
      (maxRetries + 1, (List.range maxRetries).map (fun k => 2 ^ k), none) := by
  unfold fetch_with_retry
  rw [requestWithRetries_all_fail outcomes h maxRetries 0 1]
  simp

/-- Witness for claim C1: three configured retries and always-failing
connections give four attempts, delays 1, 2, 4, and a connection error. -/
theorem fetch_with_retry_exhausts_witness :
    fetch_with_retry 3 (fun _ => Attempt.connectionFailure) = (4, [1, 2, 4], none) := by
  have h := fetch_with_retry_exhausts 3 (fun _ => Attempt.connectionFailure)
    (fun _ => rfl)
  exact h.trans (by decide)

/-- Claim C6 is false as stated: the string with a leading space before
eight digits is not itself eight decimal digits, yet the validator accepts
it, because the code strips whitespace before matching. -/
theorem validate_station_code_counterexample : ¬ station_code_claim := by
  intro h
  obtain ⟨cs, hcs, hlen, _⟩ := (h (PyObj.pyStr (" 12345678".data))).mp (by decide)
  simp only [PyObj.pyStr.injEq] at hcs
  subst hcs
  exact absurd hlen (by decide)

/-- Claim C6 (amended): the station-code validator accepts exactly the
strings whose whitespace-stripped form consists of exactly eight decimal
digits; every other string and every non-string input is rejected. -/
theorem validate_station_code_spec (o : PyObj) :
    validate_station_code o = true ↔
      ∃ cs, o = PyObj.pyStr cs ∧ (stripChars cs).length = 8 ∧
        (stripChars cs).all Char.isDigit = true := by
  cases o with
  | nonStr => simp [validate_station_code]
  | pyStr cs => simp [validate_station_code]

/-- The character rendered for a decimal digit is a digit character. -/
theorem digitChar_isDigit (k : Nat) (h : k < 10) : (digitChar k).isDigit = true := by
  interval_cases k <;> decide

/-- Numeric value of a rendered decimal digit. -/
theorem digitChar_toNat (k : Nat) (h : k < 10) : (digitChar k).toNat = 48 + k := by
  interval_cases k <;> decide

/-- A rendered decimal digit is never the dash separator. -/
theorem digitChar_ne_dash (k : Nat) (h : k < 10) : digitChar k ≠ '-' := by
  interval_cases k <;> decide

/-- Both characters of a two-digit rendering are digits. -/
theorem pad2_digits (n : Nat) : allDigits (pad2 n) = true := by
  have h1 : n / 10 % 10 < 10 := Nat.mod_lt _ (by norm_num)
  have h2 : n % 10 < 10 := Nat.mod_lt _ (by norm_num)
  simp [allDigits, pad2, digitChar_isDigit _ h1, digitChar_isDigit _ h2]

/-- All four characters of a four-digit rendering are digits. -/
theorem pad4_digits (n : Nat) : allDigits (pad4 n) = true := by
  have h1 : n / 1000 % 10 < 10 := Nat.mod_lt _ (by norm_num)
  have h2 : n / 100 % 10 < 10 := Nat.mod_lt _ (by norm_num)
  have h3 : n / 10 % 10 < 10 := Nat.mod_lt _ (by norm_num)
  have h4 : n % 10 < 10 := Nat.mod_lt _ (by norm_num)
  simp [allDigits, pad4, digitChar_isDigit _ h1, digitChar_isDigit _ h2,
        digitChar_isDigit _ h3, digitChar_isDigit _ h4]

/-- No character of a two-digit rendering is a dash. -/
theorem pad2_ne_dash (n : Nat) : ∀ c ∈ pad2 n, c ≠ '-' := by
  have h1 : n / 10 % 10 < 10 := Nat.mod_lt _ (by norm_num)
  have h2 : n % 10 < 10 := Nat.mod_lt _ (by norm_num)
  intro c hc
  simp only [pad2, List.mem_cons, List.not_mem_nil, or_false] at hc
  rcases hc with rfl | rfl
  · exact digitChar_ne_dash _ h1
  · exact digitChar_ne_dash _ h2

/-- No character of a four-digit rendering is a dash. -/
theorem pad4_ne_dash (n : Nat) : ∀ c ∈ pad4 n, c ≠ '-' := by
  have h1 : n / 1000 % 10 < 10 := Nat.mod_lt _ (by norm_num)
  have h2 : n / 100 % 10 < 10 := Nat.mod_lt _ (by norm_num)
  have h3 : n / 10 % 10 < 10 := Nat.mod_lt _ (by norm_num)
  have h4 : n % 10 < 10 := Nat.mod_lt _ (by norm_num)
  intro c hc
  simp only [pad4, List.mem_cons, List.not_mem_nil, or_false] at hc
  rcases hc with rfl | rfl | rfl | rfl
  · exact digitChar_ne_dash _ h1
  · exact digitChar_ne_dash _ h2
  · exact digitChar_ne_dash _ h3
  · exact digitChar_ne_dash _ h4

/-- Parsing back a two-digit rendering recovers the value. -/
theorem natOfDigits_pad2 (n : Nat) (h : n ≤ 99) : natOfDigits (pad2 n) = n := by
  have h1 : n / 10 % 10 < 10 := Nat.mod_lt _ (by norm_num)
  have h2 : n % 10 < 10 := Nat.mod_lt _ (by norm_num)
  simp only [natOfDigits, pad2, List.foldl_cons, List.foldl_nil,
             digitChar_toNat _ h1, digitChar_toNat _ h2]
  omega

/-- Parsing back a four-digit rendering recovers the value. -/
theorem natOfDigits_pad4 (n : Nat) (h : n ≤ 9999) : natOfDigits (pad4 n) = n := by
  have h1 : n / 1000 % 10 < 10 := Nat.mod_lt _ (by norm_num)
  have h2 : n / 100 % 10 < 10 := Nat.mod_lt _ (by norm_num)
  have h3 : n / 10 % 10 < 10 := Nat.mod_lt _ (by norm_num)
  have h4 : n % 10 < 10 := Nat.mod_lt _ (by norm_num)
  simp only [natOfDigits, pad4, List.foldl_cons, List.foldl_nil,
             digitChar_toNat _ h1, digitChar_toNat _ h2,
             digitChar_toNat _ h3, digitChar_toNat _ h4]
  omega

/-- Splitting a list free of the separator yields that list alone. -/
theorem splitChar_no_sep (sep : Char) (xs : List Char) (h : ∀ c ∈ xs, c ≠ sep) :
    splitChar sep xs = [xs] := by
  induction xs with
  | nil => rfl
  | cons c rest ih =>
    have hc : c ≠ sep := h c (List.mem_cons_self c rest)
    have hr := ih (fun x hx => h x (List.mem_cons_of_mem c hx))
    simp [splitChar, hc, hr]

/-- Splitting recognizes a separator placed after a separator-free
 prefix. -/
theorem splitChar_append_sep (sep : Char) (xs ys : List Char)
    (h : ∀ c ∈ xs, c ≠ sep) :
    splitChar sep (xs ++ sep :: ys) = xs :: splitChar sep ys := by
  induction xs with
  | nil => simp [splitChar]
  | cons c rest ih =>
    have hc : c ≠ sep := h c (List.mem_cons_self c rest)
    have hr := ih (fun x hx => h x (List.mem_cons_of_mem c hx))
    simp [splitChar, hc, hr]

/-- Splitting a rendered date on the dash recovers its three parts. -/
theorem splitChar_canon (dt : Date) :
    splitChar '-' (canonChars dt) = [pad4 dt.year, pad2 dt.month, pad2 dt.day] := by
  rw [canonChars, splitChar_append_sep _ _ _ (pad4_ne_dash dt.year),
      splitChar_append_sep _ _ _ (pad2_ne_dash dt.month),
      splitChar_no_sep _ _ (pad2_ne_dash dt.day)]

/-- Every month has at most 31 days. -/
theorem daysInMonth_le (y m : Nat) : daysInMonth y m ≤ 31 := by
  unfold daysInMonth
  split_ifs <;> norm_num

/-- Re-parsing the canonical rendering of a valid date with %Y-%m-%d
recovers the date. -/
theorem parseWithFmt_canon (dt : Date) (h : isValidDate dt = true) :
    parseWithFmt ymdDash (canonChars dt) = some dt := by
  obtain ⟨y, m, d⟩ := dt
  have hv : 1 ≤ y ∧ y ≤ 9999 ∧ 1 ≤ m ∧ m ≤ 12 ∧ 1 ≤ d ∧ d ≤ daysInMonth y m := by
    simpa [isValidDate] using h
  obtain ⟨hy1, hy2, hm1, hm2, hd1, hd2⟩ := hv
  have hdm := daysInMonth_le y m
  have hcond : (pad4 y).length = 4 ∧ allDigits (pad4 y) = true ∧
      1 ≤ (pad2 m).length ∧ (pad2 m).length ≤ 2 ∧ allDigits (pad2 m) = true ∧
      1 ≤ (pad2 d).length ∧ (pad2 d).length ≤ 2 ∧ allDigits (pad2 d) = true :=
    ⟨rfl, pad4_digits y, by simp [pad2], by simp [pad2], pad2_digits m,
     by simp [pad2], by simp [pad2], pad2_digits d⟩
  simp only [parseWithFmt, ymdDash, splitChar_canon ⟨y, m, d⟩, if_true]
  rw [if_pos hcond]
  rw [natOfDigits_pad4 y (by omega), natOfDigits_pad2 m (by omega),
      natOfDigits_pad2 d (by omega)]
  rw [if_pos h]

/-- Any date produced by the strptime model is a valid calendar date. -/
theorem isValidDate_of_parseWithFmt (f : DateFmt) (cs : List Char) (dt : Date)
    (h : parseWithFmt f cs = some dt) : isValidDate dt = true := by
  unfold parseWithFmt at h
  split at h
  · split_ifs at h <;> simp_all <;> (obtain ⟨hA, hB, rfl⟩ := h; exact hB)
  · exact absurd h (by simp)

/-- Any date found by scanning the format list is a valid calendar date. -/
theorem isValidDate_of_findSome (fs : List DateFmt) (cs : List Char) (dt : Date)
    (h : fs.findSome? (fun f => parseWithFmt f cs) = some dt) :
    isValidDate dt = true := by
  induction fs with
  | nil => simp [List.findSome?] at h
  | cons f rest ih =>
    rw [List.findSome?_cons] at h
    cases hp : parseWithFmt f cs with
    | some d1 =>
      rw [hp] at h
      simp only [Option.some.injEq] at h
      subst h
      exact isValidDate_of_parseWithFmt f cs d1 hp
    | none =>
      rw [hp] at h
      exact ih h

/-- Any date format_date accepts is a valid calendar date. -/
theorem isValidDate_of_formatDateParsed (cs : List Char) (dt : Date)
    (h : formatDateParsed cs = some dt) : isValidDate dt = true :=
  isValidDate_of_findSome dateFormats (stripChars cs) dt h

/-- Claim C7: format_date maps "2024-01-01", "01/01/2024" and "01-01-2024"
to "2024-01-01"; it raises (returns none) exactly when no supported format
parses the stripped input; and every successful output is the canonical
YYYY-MM-DD rendering of a valid date. -/
theorem format_date_normalizes :
    format_date ("2024-01-01".data) = some ("2024-01-01".data) ∧
    format_date ("01/01/2024".data) = some ("2024-01-01".data) ∧
    format_date ("01-01-2024".data) = some ("2024-01-01".data) ∧
    (∀ cs, format_date cs = none ↔
      ∀ f ∈ dateFormats, parseWithFmt f (stripChars cs) = none) ∧
    (∀ cs r, format_date cs = some r →
      ∃ dt, isValidDate dt = true ∧ r = canonChars dt) := by
  refine ⟨by decide, by decide, by decide, ?_, ?_⟩
  · intro cs
    unfold format_date formatDateParsed
    rw [Option.map_eq_none']
    exact List.findSome?_eq_none_iff
  · intro cs r h
    unfold format_date at h
    rw [Option.map_eq_some'] at h
    obtain ⟨dt, hdt, hr⟩ := h
    exact ⟨dt, isValidDate_of_formatDateParsed cs dt hdt, hr.symm⟩

/-- Witness for claim C7: the concrete output "2024-01-01" is the
canonical rendering of a valid date. -/
theorem format_date_normalizes_witness :
    ∃ dt, isValidDate dt = true ∧ ("2024-01-01".data) = canonChars dt :=
  format_date_normalizes.2.2.2.2 ("2024-01-01".data) ("2024-01-01".data) (by decide)

/-- Claim C8: for inputs format_date parses to the dates ds and de,
validate_date_range raises (returns none) exactly when the end date is
strictly earlier than the start date, and when the two dates are equal it
succeeds, returning the formatted pair. -/
theorem validate_date_range_spec (s e : List Char) (ds de : Date)
    (hs : formatDateParsed s = some ds) (he : formatDateParsed e = some de) :
    (validate_date_range s e = none ↔ dateLt de ds = true) ∧
    (ds = de → validate_date_range s e = some (canonChars ds, canonChars de)) := by
  have hvs := isValidDate_of_formatDateParsed s ds hs
  have hve := isValidDate_of_formatDateParsed e de he
  have hfs : format_date s = some (canonChars ds) := by
    unfold format_date
    rw [hs]
    rfl
  have hfe : format_date e = some (canonChars de) := by
    unfold format_date
    rw [he]
    rfl
  constructor
  · cases hlt : dateLt de ds <;>
      simp [validate_date_range, hfs, hfe, parseWithFmt_canon ds hvs,
            parseWithFmt_canon de hve, hlt]
  · rintro rfl
    have hirr : dateLt ds ds = false := by
      simp [dateLt]
    simp [validate_date_range, hfs, hfe, parseWithFmt_canon ds hvs, hirr]

/-- Witness for claim C8: equal concrete dates are accepted and returned
formatted. -/
theorem validate_date_range_spec_witness :
    validate_date_range ("2024-01-01".data) ("2024-01-01".data) =
      some ("2024-01-01".data, "2024-01-01".data) := by
  have h := validate_date_range_spec ("2024-01-01".data) ("2024-01-01".data)
    ⟨2024, 1, 1⟩ ⟨2024, 1, 1⟩ (by decide) (by decide)
  exact (h.2 rfl).trans (by decide)
